import Mathlib

/-!
Shallow embedding of the medzy-app-backend server bootstrap code.

The repository ships three Express entry-point variants:
* `serverV1` — the first document in `src/server.js` (lines 1-168): mounts the
  19 business route modules, defines only `GET /api/health` (body with
  `message` and `timestamp` only), registers bare `cors()`, has no error or
  404 middleware, and starts the listener unless `NODE_ENV === 'production'`.
* `serverV2` — the second document in `src/server.js` (lines 168-341): same
  mounts, `GET /` and `GET /api/health` status payloads, environment-dependent
  CORS, an error middleware gated on `NODE_ENV === 'development'`, a JSON 404
  handler, and a listener lifecycle skipped when `VERCEL`/`VERCEL_ENV` is set.
* `apiIndex` — `src/api/index.js`: a minimal serverless entry point with only
  `GET /` and `GET /api/health`, a fixed CORS origin list, a constant 500
  error middleware, and no 404 handler or listener.

Requests are modelled by method and path; handlers are pure functions of the
process environment and a `now` timestamp string; JSON response bodies are
association lists from field name to string value.
-/

namespace Medzy

/-- Process environment variables read by the entry points
(`NODE_ENV`, `VERCEL`, `VERCEL_ENV`, `PORT`); `none` models an unset variable. -/
structure Env where
  NODE_ENV : Option String
  VERCEL : Option String
  VERCEL_ENV : Option String
  PORT : Option String
deriving DecidableEq, Repr

/-- JavaScript truthiness of an environment variable: set and non-empty. -/
def truthy : Option String → Bool
  | none => false
  | some s => s != ""

/-- JavaScript `v || d` for an environment variable `v` with default `d`. -/
def jsOrDefault : Option String → String → String
  | none, d => d
  | some s, d => if s == "" then d else s

/-- An incoming HTTP request, as far as route dispatch looks at it. -/
structure Request where
  method : String
  path : String
deriving DecidableEq, Repr

/-- An HTTP response: status code plus JSON body as field-name/value pairs. -/
structure Response where
  status : Nat
  body : List (String × String)
deriving DecidableEq, Repr

/-- Outcome of dispatching a request against one entry point:
handled by a handler defined in the visible source, delegated to a mounted
business route module (whose code is outside the excerpt), or unmatched and
left to the framework's default behaviour. -/
inductive DispatchResult where
  | handled (r : Response)
  | delegated (mount : String)
  | frameworkDefault
deriving DecidableEq, Repr

/-- The 19 business mount points, in source registration order
(`src/server.js` lines 85-103 and 233-251). -/
def businessMounts : List String :=
  ["/api/auth", "/api/users", "/api/profile", "/api/support", "/api/medicines",
   "/api/cart", "/api/medicine-requests", "/api/orders", "/api/donations",
   "/api/daily-updates", "/api/reviews", "/api/service-reviews", "/api/payments",
   "/api/disputes", "/api/smart-doctor", "/api/medicine-reminders",
   "/api/medical-profile", "/api/customer-points", "/api/revenue-adjustments"]

/-- Character-list model of `String.startsWith` (used for JS
`String.prototype.startsWith` and Express mount matching). -/
def strStartsWith (s pre : String) : Bool :=
  List.isPrefixOf pre.toList s.toList

/-- Express `app.use(mount, router)` path matching: the path equals the mount
point or continues it at a segment boundary. -/
def mountMatches (pre path : String) : Bool :=
  path == pre || strStartsWith path (pre ++ "/")

/-- The `environment` field value: `process.env.NODE_ENV || 'development'`. -/
def envLabel (e : Env) : String := jsOrDefault e.NODE_ENV "development"

/-- Response of `GET /api/health` in the first `server.js` variant
(lines 106-108): `res.json({ message, timestamp })` — note there is no
`status` and no `environment` field, and the message says "Medsy". -/
def serverV1HealthResponse (now : String) : Response :=
  { status := 200,
    body := [("message", "Medsy Backend Server is running!"), ("timestamp", now)] }

/-- Route dispatch of the first `server.js` variant: the 19 mounts, then
`GET /api/health`; no root route, no 404 middleware. -/
def dispatchServerV1 (now : String) (req : Request) : DispatchResult :=
  match businessMounts.find? (fun p => mountMatches p req.path) with
  | some p => DispatchResult.delegated p
  | none =>
    if req.method == "GET" && req.path == "/api/health" then
      DispatchResult.handled (serverV1HealthResponse now)
    else
      DispatchResult.frameworkDefault

/-- Response of `GET /` in the second `server.js` variant (lines 254-261). -/
def serverV2RootResponse (e : Env) (now : String) : Response :=
  { status := 200,
    body := [("message", "Medzy Healthcare & Medicine Tracker API"),
             ("status", "running"), ("timestamp", now),
             ("environment", envLabel e)] }

/-- Response of `GET /api/health` in the second `server.js` variant
(lines 263-270). -/
def serverV2HealthResponse (e : Env) (now : String) : Response :=
  { status := 200,
    body := [("message", "Medzy Backend Server is running!"),
             ("status", "healthy"), ("timestamp", now),
             ("environment", envLabel e)] }

/-- The JSON 404 body produced by the second variant's catch-all handler
(lines 282-287): `{ message: 'Route not found', path: req.path }`. -/
def notFoundResponse (path : String) : Response :=
  { status := 404, body := [("message", "Route not found"), ("path", path)] }

/-- Route dispatch of the second `server.js` variant: the 19 mounts, then
`GET /`, then `GET /api/health`, then the catch-all JSON 404. -/
def dispatchServerV2 (e : Env) (now : String) (req : Request) : DispatchResult :=
  match businessMounts.find? (fun p => mountMatches p req.path) with
  | some p => DispatchResult.delegated p
  | none =>
    if req.method == "GET" && req.path == "/" then
      DispatchResult.handled (serverV2RootResponse e now)
    else if req.method == "GET" && req.path == "/api/health" then
      DispatchResult.handled (serverV2HealthResponse e now)
    else
      DispatchResult.handled (notFoundResponse req.path)

/-- The second variant's error middleware (lines 273-279): HTTP 500 with the
underlying message exposed only when `NODE_ENV === 'development'`. -/
def serverV2ErrorResponse (e : Env) (errMessage : String) : Response :=
  { status := 500,
    body := [("message", "Something went wrong!"),
             ("error", if e.NODE_ENV == some "development" then errMessage
                       else "Internal server error")] }

/-- Response of `GET /` in `src/api/index.js` (lines 19-25): no
`environment` field. -/
def apiIndexRootResponse (now : String) : Response :=
  { status := 200,
    body := [("message", "Medzy Healthcare API"), ("status", "running"),
             ("timestamp", now)] }

/-- Response of `GET /api/health` in `src/api/index.js` (lines 27-33): no
`environment` field. -/
def apiIndexHealthResponse (now : String) : Response :=
  { status := 200,
    body := [("message", "Medzy Backend Server is running!"),
             ("status", "healthy"), ("timestamp", now)] }

/-- Route dispatch of the minimal serverless entry point
(`src/api/index.js`): only `GET /` and `GET /api/health` are defined; no
business mounts and no 404 middleware, so everything else falls through to
the framework default. -/
def dispatchApiIndex (now : String) (req : Request) : DispatchResult :=
  if req.method == "GET" && req.path == "/" then
    DispatchResult.handled (apiIndexRootResponse now)
  else if req.method == "GET" && req.path == "/api/health" then
    DispatchResult.handled (apiIndexHealthResponse now)
  else
    DispatchResult.frameworkDefault

/-- The minimal entry point's error middleware (`src/api/index.js`
lines 36-39): a constant 500 with no error-detail field. -/
def apiIndexErrorResponse : Response :=
  { status := 500, body := [("message", "Internal server error")] }

/-- A CORS registration: an explicit origin allow-list (`none` means the
library default of reflecting any origin) and the `credentials` flag. -/
structure CorsConfig where
  originList : Option (List String)
  credentials : Bool
deriving DecidableEq, Repr

/-- The first variant's `app.use(cors())` (line 71): library defaults —
no origin allow-list and credentials not enabled. -/
def serverV1Cors : CorsConfig := { originList := none, credentials := false }

/-- The fixed production frontend origin. -/
def productionOrigin : String := "https://medzy-app-frontend.vercel.app"

/-- The second variant's CORS registration (lines 207-212): the production
origin when `NODE_ENV === 'production'`, the two local development origins
otherwise, with credentials enabled. -/
def serverV2Cors (e : Env) : CorsConfig :=
  { originList := some (if e.NODE_ENV == some "production" then [productionOrigin]
                        else ["http://localhost:5173", "http://localhost:3000"]),
    credentials := true }

/-- The minimal entry point's CORS registration (`src/api/index.js`
lines 12-15): a fixed, environment-independent list holding the production
origin and one local origin, with credentials enabled. -/
def apiIndexCors : CorsConfig :=
  { originList := some [productionOrigin, "http://localhost:5173"],
    credentials := true }

/-- Node `path.extname` on a plain file name: the suffix from the last dot,
empty when there is no dot or the only dot is the leading character. -/
def extname (s : String) : String :=
  let rev := s.toList.reverse
  let afterDotRev := rev.takeWhile (fun c => c != '.')
  if rev.length ≤ afterDotRev.length then ""
  else if rev.length = afterDotRev.length + 1 then ""
  else String.mk ('.' :: afterDotRev.reverse)

/-- The multer `filename` callback (lines 46-49):
`file.fieldname + '-' + Date.now() + '-' + Math.round(Math.random()*1e9)
 + path.extname(file.originalname)`. -/
def generatedFilename (fieldname : String) (nowMs rand : Nat)
    (originalname : String) : String :=
  fieldname ++ "-" ++ toString nowMs ++ "-" ++ toString rand ++
    extname originalname

/-- Outcome of the multer `fileFilter` callback. -/
inductive FilterVerdict where
  | accepted
  | rejected (msg : String)
deriving DecidableEq, Repr

/-- The multer `fileFilter` (lines 54-61): accept when the declared mimetype
starts with `image/`, otherwise pass `new Error('Only image files are
allowed!')` to the callback. -/
def fileFilter (mimetype : String) : FilterVerdict :=
  if strStartsWith mimetype "image/" then FilterVerdict.accepted
  else FilterVerdict.rejected "Only image files are allowed!"

/-- The multer size cap (lines 62-64): `10 * 1024 * 1024` bytes. -/
def fileSizeLimit : Nat := 10 * 1024 * 1024

/-- Combined upload acceptance: the file filter passes and the size is within
the configured limit. -/
def uploadAccepts (mimetype : String) (size : Nat) : Bool :=
  strStartsWith mimetype "image/" && decide (size ≤ fileSizeLimit)

/-- What the process does after the listener's `error` event or a signal. -/
inductive LifecycleAction where
  | exitProcess (code : Nat)
  | retryBind
  | useAlternatePort (p : Nat)
deriving DecidableEq, Repr

/-- Whether the action terminates the process with a non-zero status (and in
particular is neither a bind retry nor an alternate-port selection). -/
def LifecycleAction.isNonzeroExit : LifecycleAction → Bool
  | LifecycleAction.exitProcess n => n != 0
  | LifecycleAction.retryBind => false
  | LifecycleAction.useAlternatePort _ => false

/-- The first variant's `server.on('error')` handler (lines 118-137): on
`EADDRINUSE` print remediation guidance (platform-dependent last line) and
`process.exit(1)`; any other error also exits with 1. -/
def serverV1OnListenError (port : Nat) (platformWin32 : Bool) (code : String) :
    List String × LifecycleAction :=
  if code == "EADDRINUSE" then
    (["❌ Port " ++ toString port ++ " is already in use. Please:",
      "   1. Kill the process using port " ++ toString port,
      "   2. Or change the PORT in your .env file",
      "   3. Current processes on port " ++ toString port ++ ":",
      if platformWin32 then "   Run: netstat -ano | findstr :" ++ toString port
      else "   Run: lsof -i :" ++ toString port],
     LifecycleAction.exitProcess 1)
  else
    (["Server error:"], LifecycleAction.exitProcess 1)

/-- The second variant's `server.on('error')` handler (lines 299-309). -/
def serverV2OnListenError (port : Nat) (code : String) :
    List String × LifecycleAction :=
  if code == "EADDRINUSE" then
    (["❌ Port " ++ toString port ++ " is already in use. Please:",
      "1. Stop any other server running on port " ++ toString port,
      "2. Use a different port by setting PORT environment variable"],
     LifecycleAction.exitProcess 1)
  else
    (["Server error:"], LifecycleAction.exitProcess 1)

/-- The signals with registered shutdown handlers (lines 140-154 and
312-326): `SIGINT` and `SIGTERM`. -/
def signalNames : List String := ["SIGINT", "SIGTERM"]

/-- State of a running listener: whether it still accepts new connections,
how many requests are in flight, and the exit status once the process has
terminated. -/
structure ServerState where
  acceptingNew : Bool
  inflight : Nat
  exited : Option Nat
deriving DecidableEq, Repr

/-- The shutdown handler body, `server.close(() => process.exit(0))`:
stop accepting new connections; the close callback (exit 0) fires once no
connections remain, hence immediately when none are in flight. -/
def onShutdownSignal (s : ServerState) : ServerState :=
  if s.inflight == 0 then { s with acceptingNew := false, exited := some 0 }
  else { s with acceptingNew := false }

/-- Deliver a signal: the shutdown body runs exactly for the registered
signal names. -/
def handleSignal (sig : String) (s : ServerState) : ServerState :=
  if signalNames.contains sig then onShutdownSignal s else s

/-- One in-flight request finishes; when the server is closing and this was
the last connection, the close callback fires and the process exits 0. -/
def finishOneRequest (s : ServerState) : ServerState :=
  match s.inflight with
  | 0 => s
  | Nat.succ k =>
    if !s.acceptingNew && k == 0 then
      { s with inflight := k, exited := some 0 }
    else
      { s with inflight := k }

/-- Let `n` in-flight requests finish one after the other. -/
def drain : Nat → ServerState → ServerState
  | 0, s => s
  | Nat.succ k, s => drain k (finishOneRequest s)

/-- Serverless detection in the second variant (line 204):
`process.env.VERCEL || process.env.VERCEL_ENV`. -/
def isVercel (e : Env) : Bool := truthy e.VERCEL || truthy e.VERCEL_ENV

/-- Whether the second variant starts the listener lifecycle (lines 293 and
336): only outside the detected serverless mode. -/
def serverV2StartsListener (e : Env) : Bool := !(isVercel e)

/-- Whether the first variant starts the listener lifecycle (line 163):
gated on `NODE_ENV !== 'production'`, not on the Vercel variables. -/
def serverV1StartsListener (e : Env) : Bool := !(e.NODE_ENV == some "production")

/-- A development environment with no serverless variables set. -/
def devEnv : Env :=
  { NODE_ENV := some "development", VERCEL := none, VERCEL_ENV := none,
    PORT := none }

/-- A staging environment: neither production nor development. -/
def stagingEnv : Env :=
  { NODE_ENV := some "staging", VERCEL := none, VERCEL_ENV := none,
    PORT := none }

/-- A development environment running under the serverless platform. -/
def vercelDevEnv : Env :=
  { NODE_ENV := some "development", VERCEL := some "1", VERCEL_ENV := none,
    PORT := none }

end Medzy

namespace Medzy

/-! ## Properties of the route dispatch -/

/-- C1, counterexample: in the first `server.js` variant (lines 106-108) the
`GET /api/health` handler answers 200 but its JSON body has no `status`
field at all (and no `environment` field), so the claim that every GET
request to `/api/health` yields a body whose `status` field is `"healthy"`
fails on that cited handler. -/
theorem medzy_c1_counterexample :
    dispatchServerV1 "t0" { method := "GET", path := "/api/health" } =
      DispatchResult.handled (serverV1HealthResponse "t0") ∧
    (serverV1HealthResponse "t0").body.lookup "status" = none ∧
    (serverV1HealthResponse "t0").body.lookup "environment" = none ∧
    (serverV1HealthResponse "t0").status = 200 := by
  refine ⟨rfl, rfl, rfl, rfl⟩

/-- C1, amended: on the second `server.js` variant every `GET /api/health`
answers 200 with `status = "healthy"` plus `message`, `timestamp` and
`environment`; the minimal serverless entry point also answers
`status = "healthy"` but omits the `environment` field; the first variant's
body carries no `status` field (see the counterexample). -/
theorem medzy_c1_health (e : Env) (now : String) :
    dispatchServerV2 e now { method := "GET", path := "/api/health" } =
      DispatchResult.handled (serverV2HealthResponse e now) ∧
    (serverV2HealthResponse e now).status = 200 ∧
    (serverV2HealthResponse e now).body.lookup "status" = some "healthy" ∧
    (serverV2HealthResponse e now).body.lookup "message" =
      some "Medzy Backend Server is running!" ∧
    (serverV2HealthResponse e now).body.lookup "timestamp" = some now ∧
    (serverV2HealthResponse e now).body.lookup "environment" = some (envLabel e) ∧
    dispatchApiIndex now { method := "GET", path := "/api/health" } =
      DispatchResult.handled (apiIndexHealthResponse now) ∧
    (apiIndexHealthResponse now).body.lookup "status" = some "healthy" ∧
    (apiIndexHealthResponse now).body.lookup "environment" = none := by
  refine ⟨rfl, rfl, rfl, rfl, rfl, rfl, rfl, rfl, rfl⟩

/-- C2, counterexample: on the minimal serverless entry point
(`src/api/index.js`) there is no 404 middleware, so a request to an
unmounted path (`GET /api/does-not-exist`) falls through to the framework
default instead of the JSON body `{ message: 'Route not found', path }`. -/
theorem medzy_c2_counterexample :
    dispatchApiIndex "t0" { method := "GET", path := "/api/does-not-exist" } =
      DispatchResult.frameworkDefault ∧
    DispatchResult.frameworkDefault ≠
      DispatchResult.handled (notFoundResponse "/api/does-not-exist") := by
  exact ⟨rfl, by decide⟩

/-- C2, amended: on the second `server.js` variant, every request whose path
matches none of the 19 mounted business route modules and which is neither
`GET /` nor `GET /api/health` receives HTTP 404 with the JSON body
`{ message: 'Route not found', path: <request path> }`, the `path` field
echoing exactly the requested path; the first variant and the minimal
serverless entry point define no such handler. -/
theorem medzy_c2_not_found (e : Env) (now : String) (req : Request)
    (hmount : businessMounts.all (fun p => !(mountMatches p req.path)) = true)
    (hroot : (req.method == "GET" && req.path == "/") = false)
    (hhealth : (req.method == "GET" && req.path == "/api/health") = false) :
    dispatchServerV2 e now req =
      DispatchResult.handled (notFoundResponse req.path) := by
  have hfind : businessMounts.find? (fun p => mountMatches p req.path) = none := by
    rw [List.find?_eq_none]
    intro p hp
    have := List.all_eq_true.mp hmount p hp
    simpa using this
  unfold dispatchServerV2
  rw [hfind]
  simp [hroot, hhealth]

/-- C2, witness: `GET /api/does-not-exist` on the second variant yields the
JSON 404 echoing the path. -/
theorem medzy_c2_not_found_witness :
    dispatchServerV2 devEnv "t0" { method := "GET", path := "/api/does-not-exist" } =
      DispatchResult.handled (notFoundResponse "/api/does-not-exist") :=
  medzy_c2_not_found devEnv "t0"
    { method := "GET", path := "/api/does-not-exist" }
    (by decide) (by decide) (by decide)

/-- C3, counterexample: with `NODE_ENV = "staging"` — an environment other
than production — the second variant's error middleware still answers with
the generic detail `"Internal server error"` rather than the underlying
error message `"boom"`, because the code gates the detail on
`NODE_ENV === 'development'`, not on being outside production. -/
theorem medzy_c3_counterexample :
    stagingEnv.NODE_ENV = some "staging" ∧
    "staging" ≠ "production" ∧
    (serverV2ErrorResponse stagingEnv "boom").body.lookup "error" =
      some "Internal server error" ∧
    "boom" ≠ "Internal server error" := by
  refine ⟨rfl, by decide, rfl, by decide⟩

/-- C3, amended: unhandled errors yield HTTP 500; on the second `server.js`
variant the body's `error` detail is the underlying message exactly when
`NODE_ENV` is `'development'` and the generic string in every other
environment (production included); the minimal serverless entry point
always answers a constant 500 body with no error-detail field. -/
theorem medzy_c3_error_responses (e : Env) (msg : String) :
    (serverV2ErrorResponse e msg).status = 500 ∧
    (serverV2ErrorResponse e msg).body.lookup "error" =
      some (if e.NODE_ENV == some "development" then msg
            else "Internal server error") ∧
    apiIndexErrorResponse.status = 500 ∧
    apiIndexErrorResponse.body.lookup "error" = none := by
  refine ⟨rfl, rfl, rfl, rfl⟩

/-- C8, counterexample: the first `server.js` variant defines no `GET /`
route (and no 404 middleware), so a `GET /` request there falls through to
the framework default instead of a 200 `status: "running"` payload; and the
minimal serverless entry point's root payload carries no `environment`
field. -/
theorem medzy_c8_counterexample :
    dispatchServerV1 "t0" { method := "GET", path := "/" } =
      DispatchResult.frameworkDefault ∧
    (apiIndexRootResponse "t0").body.lookup "environment" = none := by
  refine ⟨rfl, rfl⟩

/-- C8, amended: on the second `server.js` variant every `GET /` answers 200
with `status = "running"` plus `message`, `timestamp` and `environment`;
the minimal serverless entry point also answers 200 with
`status = "running"` but omits `environment`; the first variant has no root
route at all (see the counterexample). -/
theorem medzy_c8_root (e : Env) (now : String) :
    dispatchServerV2 e now { method := "GET", path := "/" } =
      DispatchResult.handled (serverV2RootResponse e now) ∧
    (serverV2RootResponse e now).status = 200 ∧
    (serverV2RootResponse e now).body.lookup "status" = some "running" ∧
    (serverV2RootResponse e now).body.lookup "message" =
      some "Medzy Healthcare & Medicine Tracker API" ∧
    (serverV2RootResponse e now).body.lookup "timestamp" = some now ∧
    (serverV2RootResponse e now).body.lookup "environment" = some (envLabel e) ∧
    dispatchApiIndex now { method := "GET", path := "/" } =
      DispatchResult.handled (apiIndexRootResponse now) ∧
    (apiIndexRootResponse now).status = 200 ∧
    (apiIndexRootResponse now).body.lookup "status" = some "running" := by
  refine ⟨rfl, rfl, rfl, rfl, rfl, rfl, rfl, rfl, rfl⟩

end Medzy

namespace Medzy

/-! ## Properties of the upload, CORS and startup configuration -/

/-- C4, counterexample: the stored filename is not composed of just a
timestamp, a random suffix and the original extension — the multer callback
prepends the form field name, so the concrete upload with field
`profilePicture`, timestamp 1700, random suffix 42 and original name
`photo.png` is stored as `profilePicture-1700-42.png`, which does not start
with the timestamp. -/
theorem medzy_c4_counterexample :
    generatedFilename "profilePicture" 1700 42 "photo.png" =
      "profilePicture-1700-42.png" ∧
    strStartsWith (generatedFilename "profilePicture" 1700 42 "photo.png")
      (toString (1700 : Nat)) = false := by
  refine ⟨by decide, by decide⟩

/-- C4, amended: the upload configuration rejects exactly the files whose
declared content type does not start with `image/` (with the error message
`'Only image files are allowed!'`), accepts image files within the
10MB cap, and stores an accepted file under a filename composed of the form
field name, a timestamp, a random suffix, and the original file's
extension. -/
theorem medzy_c4_upload (mt f o : String) (t r sz : Nat) :
    (fileFilter mt = FilterVerdict.accepted ↔ strStartsWith mt "image/" = true) ∧
    (fileFilter mt = FilterVerdict.rejected "Only image files are allowed!" ↔
      strStartsWith mt "image/" = false) ∧
    fileSizeLimit = 10 * 1024 * 1024 ∧
    (uploadAccepts mt sz = true ↔
      strStartsWith mt "image/" = true ∧ sz ≤ fileSizeLimit) ∧
    generatedFilename f t r o =
      f ++ "-" ++ toString t ++ "-" ++ toString r ++ extname o := by
  refine ⟨?_, ?_, rfl, ?_, rfl⟩
  · cases h : strStartsWith mt "image/" <;> simp [fileFilter, h]
  · cases h : strStartsWith mt "image/" <;> simp [fileFilter, h]
  · simp [uploadAccepts, Bool.and_eq_true, decide_eq_true_iff]

/-- C5, counterexample: the first `server.js` variant registers bare
`cors()` (line 71), leaving credentials disabled, and the minimal
serverless entry point's allow-list is environment-independent and contains
the production origin even outside production — both contradicting the
claim that the allow-list is environment-dependent with only local origins
outside production and credentials enabled everywhere. -/
theorem medzy_c5_counterexample :
    serverV1Cors.credentials = false ∧
    serverV1Cors.originList = none ∧
    apiIndexCors.originList = some [productionOrigin, "http://localhost:5173"] ∧
    productionOrigin ∈ (apiIndexCors.originList.getD []) := by
  refine ⟨rfl, rfl, rfl, by decide⟩

/-- C5, amended: only the second `server.js` variant has the
environment-dependent CORS allow-list — exactly the fixed production origin
when `NODE_ENV` is `'production'` and exactly the two local development
origins otherwise — with credentials enabled; the first variant registers
library-default CORS (no allow-list, credentials disabled) and the minimal
serverless entry point uses a fixed environment-independent list (with
credentials enabled). -/
theorem medzy_c5_cors (e : Env) :
    (serverV2Cors e).credentials = true ∧
    (serverV2Cors e).originList =
      some (if e.NODE_ENV == some "production" then [productionOrigin]
            else ["http://localhost:5173", "http://localhost:3000"]) ∧
    ((serverV2Cors e).originList = some [productionOrigin] ↔
      (e.NODE_ENV == some "production") = true) ∧
    ((serverV2Cors e).originList =
        some ["http://localhost:5173", "http://localhost:3000"] ↔
      (e.NODE_ENV == some "production") = false) ∧
    apiIndexCors.credentials = true ∧
    serverV1Cors.credentials = false := by
  refine ⟨rfl, rfl, ?_, ?_, rfl, rfl⟩
  · cases h : (e.NODE_ENV == some "production") <;>
      simp [serverV2Cors, h, productionOrigin]
  · cases h : (e.NODE_ENV == some "production") <;>
      simp [serverV2Cors, h, productionOrigin]

/-- C9, counterexample: with `VERCEL = "1"` and `NODE_ENV = "development"`
the serverless platform is detected, yet the first `server.js` variant
still starts the listener lifecycle, because its guard is
`NODE_ENV !== 'production'` and ignores the Vercel variables. -/
theorem medzy_c9_counterexample :
    isVercel vercelDevEnv = true ∧
    serverV1StartsListener vercelDevEnv = true := by
  refine ⟨rfl, rfl⟩

/-- C9, amended: the second `server.js` variant skips the whole listener
lifecycle (listen call, port-conflict handler, signal handlers) exactly when
`VERCEL` or `VERCEL_ENV` is set to a truthy value, exporting the app for the
platform; the first variant instead gates the lifecycle on
`NODE_ENV === 'production'` and ignores the Vercel variables. -/
theorem medzy_c9_serverless (e : Env) :
    (serverV2StartsListener e = false ↔
      truthy e.VERCEL = true ∨ truthy e.VERCEL_ENV = true) ∧
    (serverV1StartsListener e = false ↔ e.NODE_ENV = some "production") := by
  constructor
  · unfold serverV2StartsListener isVercel
    cases truthy e.VERCEL <;> cases truthy e.VERCEL_ENV <;> simp
  · unfold serverV1StartsListener
    cases h : (e.NODE_ENV == some "production") <;> simp_all

end Medzy

namespace Medzy

/-! ## Properties of the listener lifecycle -/

/-- Finishing a request never changes whether new connections are accepted. -/
theorem finishOneRequest_acceptingNew (s : ServerState) :
    (finishOneRequest s).acceptingNew = s.acceptingNew := by
  rcases s with ⟨a, n, ex⟩
  cases n with
  | zero => rfl
  | succ k =>
    show (if !a && k == 0 then _ else _ : ServerState).acceptingNew = a
    split <;> rfl

/-- Draining never changes whether new connections are accepted. -/
theorem drain_acceptingNew (n : Nat) :
    ∀ s : ServerState, (drain n s).acceptingNew = s.acceptingNew := by
  induction n with
  | zero => intro s; rfl
  | succ k ih =>
    intro s
    have h : drain (k + 1) s = drain k (finishOneRequest s) := rfl
    rw [h, ih, finishOneRequest_acceptingNew]

/-- Once the listener is closed, draining all remaining in-flight requests
fires the close callback: the process has exited with status 0. -/
theorem drain_completes :
    ∀ (n : Nat) (ex : Option Nat), ex = some 0 ∨ 0 < n →
      (drain n { acceptingNew := false, inflight := n, exited := ex }).exited =
        some 0 := by
  intro n
  induction n with
  | zero =>
    intro ex hd
    rcases hd with h | h
    · simpa [drain] using h
    · exact absurd h (by decide)
  | succ k ih =>
    intro ex _
    cases k with
    | zero =>
      show (drain 0 (finishOneRequest
        { acceptingNew := false, inflight := 1, exited := ex })).exited = some 0
      rfl
    | succ j =>
      have hstep : finishOneRequest
          { acceptingNew := false, inflight := j + 2, exited := ex } =
          { acceptingNew := false, inflight := j + 1, exited := ex } := rfl
      show (drain (j + 1) (finishOneRequest
        { acceptingNew := false, inflight := j + 2, exited := ex })).exited = some 0
      rw [hstep]
      exact ih ex (Or.inr (Nat.succ_pos j))

/-- While strictly fewer requests have finished than were in flight, the
close callback has not fired yet: the process has not exited. -/
theorem drain_not_done :
    ∀ (k : Nat) (a : Bool) (n : Nat), k < n →
      (drain k { acceptingNew := a, inflight := n, exited := none }).exited =
          none ∧
      (drain k { acceptingNew := a, inflight := n, exited := none }).inflight =
          n - k := by
  intro k
  induction k with
  | zero => intro a n _; exact ⟨rfl, rfl⟩
  | succ j ih =>
    intro a n hlt
    match n, hlt with
    | Nat.succ m, hlt =>
      have hm : j < m := Nat.lt_of_succ_lt_succ hlt
      have hm0 : (m == 0) = false := by
        cases m with
        | zero => exact absurd hm (Nat.not_lt_zero j)
        | succ i => rfl
      have hstep : finishOneRequest
          { acceptingNew := a, inflight := m + 1, exited := none } =
          { acceptingNew := a, inflight := m, exited := none } := by
        show (if !a && m == 0 then _ else _ : ServerState) = _
        rw [hm0, Bool.and_false]
        rfl
      have hd : drain (j + 1)
          { acceptingNew := a, inflight := m + 1, exited := none } =
          drain j { acceptingNew := a, inflight := m, exited := none } := by
        show drain j (finishOneRequest
          { acceptingNew := a, inflight := m + 1, exited := none }) = _
        rw [hstep]
      rw [hd]
      have := ih a m hm
      exact ⟨this.1, by rw [this.2]; omega⟩

/-- C6: on a bind failure with the address-in-use code, both `server.js`
variants print remediation guidance and terminate with exit status 1; for
every error code the registered handler's outcome is a non-zero process
exit, never a bind retry and never an alternate-port selection. -/
theorem medzy_c6_port_conflict (port : Nat) (pw : Bool) (code : String) :
    (serverV2OnListenError port "EADDRINUSE").2 = LifecycleAction.exitProcess 1 ∧
    (serverV1OnListenError port pw "EADDRINUSE").2 =
      LifecycleAction.exitProcess 1 ∧
    (serverV2OnListenError port "EADDRINUSE").1 =
      ["❌ Port " ++ toString port ++ " is already in use. Please:",
       "1. Stop any other server running on port " ++ toString port,
       "2. Use a different port by setting PORT environment variable"] ∧
    (serverV1OnListenError port pw "EADDRINUSE").1.length = 5 ∧
    ((serverV2OnListenError port code).2).isNonzeroExit = true ∧
    ((serverV1OnListenError port pw code).2).isNonzeroExit = true := by
  refine ⟨rfl, rfl, rfl, rfl, ?_, ?_⟩
  · unfold serverV2OnListenError
    split <;> rfl
  · unfold serverV1OnListenError
    split <;> rfl

/-- C7: delivering `SIGINT` or `SIGTERM` to a running instance stops the
acceptance of new connections at once; the process does not exit while
requests are still in flight, and once all in-flight requests have
finished it exits with status 0. -/
theorem medzy_c7_graceful_shutdown (sig : String) (a : Bool) (n : Nat)
    (hsig : signalNames.contains sig = true) :
    (handleSignal sig ⟨a, n, none⟩).acceptingNew = false ∧
    (drain n (handleSignal sig ⟨a, n, none⟩)).exited = some 0 ∧
    (∀ k, k < n → (drain k (handleSignal sig ⟨a, n, none⟩)).exited = none) := by
  have hh : handleSignal sig ⟨a, n, none⟩
      = onShutdownSignal { acceptingNew := a, inflight := n, exited := none } := by
    unfold handleSignal
    rw [hsig]
    rfl
  rw [hh]
  cases n with
  | zero => exact ⟨rfl, rfl, fun k hk => absurd hk (by omega)⟩
  | succ m =>
    have ho : onShutdownSignal
        { acceptingNew := a, inflight := m + 1, exited := none } =
        { acceptingNew := false, inflight := m + 1, exited := none } := rfl
    rw [ho]
    refine ⟨rfl, drain_completes (m + 1) none (Or.inr (Nat.succ_pos m)), ?_⟩
    intro k hk
    exact (drain_not_done k false (m + 1) hk).1

/-- C7, witness: a `SIGINT` delivered with two requests in flight — the
process has not exited after the first request finishes and exits with
status 0 once both have. -/
theorem medzy_c7_graceful_shutdown_witness :
    (handleSignal "SIGINT" ⟨true, 2, none⟩).acceptingNew = false ∧
    (drain 2 (handleSignal "SIGINT" ⟨true, 2, none⟩)).exited = some 0 ∧
    (drain 1 (handleSignal "SIGINT" ⟨true, 2, none⟩)).exited = none := by
  have h := medzy_c7_graceful_shutdown "SIGINT" true 2 (by decide)
  exact ⟨h.1, h.2.1, h.2.2 1 (by decide)⟩

/-- C10: the minimal serverless entry point handles only `GET /` and
`GET /api/health`; every other request — in particular any request to a
business path such as `/api/auth` or `/api/orders` — falls through to the
framework's default not-found behaviour and does not receive the JSON
`Route not found` body. -/
theorem medzy_c10_minimal_entry (now method path : String)
    (hroot : (method == "GET" && path == "/") = false)
    (hhealth : (method == "GET" && path == "/api/health") = false) :
    dispatchApiIndex now { method := method, path := path } =
      DispatchResult.frameworkDefault ∧
    dispatchApiIndex now { method := method, path := path } ≠
      DispatchResult.handled (notFoundResponse path) := by
  have h : dispatchApiIndex now { method := method, path := path } =
      DispatchResult.frameworkDefault := by
    unfold dispatchApiIndex
    simp [hroot, hhealth]
  exact ⟨h, by rw [h]; exact fun hc => DispatchResult.noConfusion hc⟩

/-- C10, witness: `GET /api/auth` on the minimal serverless entry point
falls through to the framework default. -/
theorem medzy_c10_minimal_entry_witness :
    dispatchApiIndex "t0" { method := "GET", path := "/api/auth" } =
      DispatchResult.frameworkDefault ∧
    dispatchApiIndex "t0" { method := "GET", path := "/api/auth" } ≠
      DispatchResult.handled (notFoundResponse "/api/auth") :=
  medzy_c10_minimal_entry "t0" "GET" "/api/auth" (by decide) (by decide)

end Medzy
